import Mathlib

/-!
Verification of the wall-clock profiling event source
(`src/profile-eventsource-timerthread.cc`, class `ThreadProfileEventSource`).

The C++ class is embedded shallowly:

* `EvState` collects the instance fields `thread_` (modelled as a `Bool`,
  "a timer-thread handle is held"), `thread_stop_`, `events_enabled_`,
  `frequency_`, the registry `threads_` (a `list<pthread_t>`, modelled as
  `List Nat`) and the process-wide counter `current_tick_` (an `Atomic32`,
  modelled as its 32-bit pattern, a `Nat` below `2^32 = 4294967296`).
* The thread-local `thread_last_tick` is passed explicitly to
  `getTicksSinceLastCall`, which returns the updated value.
* `RAW_LOG(FATAL, ...)` aborts the process; operations that can hit it
  return `Option EvState`, `none` standing for the abort.
* Signal delivery (`pthread_kill`) is abstracted by an oracle
  `kill : Nat → KillResult` giving each target's error code.
-/

namespace ThreadProfileEventSource

/-- Outcome of `pthread_kill(target, SIGPROF)` for one target thread:
success, `ESRCH` (no such thread), `EINVAL`, or any other error code. -/
inductive KillResult where
  | ok : KillResult
  | esrch : KillResult
  | einval : KillResult
  | err : Nat → KillResult
deriving DecidableEq, Repr

/-- The instance state of `ThreadProfileEventSource` together with the
static counter `current_tick_`. -/
structure EvState where
  thread : Bool
  thread_stop : Bool
  events_enabled : Bool
  frequency : Int
  threads : List Nat
  current_tick : Nat
deriving DecidableEq, Repr

/-- The constructor `ThreadProfileEventSource(int32 frequency)` plus the
static initializer `current_tick_ = 0`; the registry list starts empty. -/
def mk (frequency : Int) : EvState :=
  { thread := false, thread_stop := false, events_enabled := false,
    frequency := frequency, threads := [], current_tick := 0 }

/-- `EnableEvents()`: sets `events_enabled_ = true`. -/
def enableEvents (s : EvState) : EvState :=
  { s with events_enabled := true }

/-- `DisableEvents()` as written in the source: it also sets
`events_enabled_ = true` (lines 23-25). -/
def disableEvents (s : EvState) : EvState :=
  { s with events_enabled := true }

/-- `RegisterThread(int callback_count)`: under the lock, pushes the
calling thread's id onto the back of `threads_`. -/
def registerThread (s : EvState) (self : Nat) : EvState :=
  { s with threads := s.threads ++ [self] }

/-- `StartTimerThread()`: fatal (`none`) if a thread handle is already
held; otherwise clears `thread_stop_` and stores the new handle. -/
def startTimerThread (s : EvState) : Option EvState :=
  if s.thread then none
  else some { s with thread_stop := false, thread := true }

/-- `StopTimerThread()`: if a handle is held, set the stop flag, join,
and clear the handle; otherwise return with the state untouched. -/
def stopTimerThread (s : EvState) : EvState :=
  if s.thread then { s with thread_stop := true, thread := false } else s

/-- `Reset()`: the body is exactly one call to `StopTimerThread()`. -/
def reset (s : EvState) : EvState :=
  stopTimerThread s

/-- `RegisteredCallback(int new_callback_count)`: starts the timer thread
exactly when the new count is 1. -/
def registeredCallback (s : EvState) (new_callback_count : Int) : Option EvState :=
  if new_callback_count = 1 then startTimerThread s else some s

/-- `UnregisteredCallback(int new_callback_count)`: stops the timer thread
exactly when the new count is 0. -/
def unregisteredCallback (s : EvState) (new_callback_count : Int) : EvState :=
  if new_callback_count = 0 then stopTimerThread s else s

/-- Reinterpret a 32-bit pattern as the signed `Atomic32` value it holds
(two's complement). -/
def toSigned (n : Nat) : Int :=
  if n < 2147483648 then (n : Int) else (n : Int) - 4294967296

/-- 32-bit subtraction `a - b` followed by the conversion to `uint32_t`:
the resulting bit pattern, as a natural number below `2^32`. -/
def sub32 (a b : Nat) : Nat :=
  (((a : Int) - (b : Int)) % 4294967296).toNat

/-- `GetTicksSinceLastCall()`, as a function of the two loads it performs:
`system_time` (the shared `current_tick_`) and `thread_time` (the caller's
`thread_last_tick`).  Returns the `uint32_t` result together with the value
stored back into `thread_last_tick`. -/
def getTicksSinceLastCall (system_time thread_time : Nat) : Nat × Nat :=
  let ticks : Nat :=
    if thread_time ≠ 0 then
      if toSigned system_time > toSigned thread_time
        then sub32 system_time thread_time
        else sub32 thread_time system_time
    else 1
  (ticks, system_time)

/-- One pass of the delivery `for` loop in `TimerThreadMain` (lines
121-145), driven by the `pthread_kill` oracle.  Returns the registry after
the pass, the list of targets a delivery was attempted to (in order), and
the list of targets whose failure was logged as a warning.  `ESRCH` erases
the entry and continues; `EINVAL` and unknown errors log a warning and
keep the entry. -/
def deliverPass (kill : Nat → KillResult) : List Nat → List Nat × List Nat × List Nat
  | [] => ([], [], [])
  | t :: ts =>
    let r := deliverPass kill ts
    match kill t with
    | KillResult.ok => (t :: r.1, t :: r.2.1, r.2.2)
    | KillResult.esrch => (r.1, t :: r.2.1, r.2.2)
    | KillResult.einval => (t :: r.1, t :: r.2.1, t :: r.2.2)
    | KillResult.err _ => (t :: r.1, t :: r.2.1, t :: r.2.2)

/-- One iteration of the `while` loop body of `TimerThreadMain` (lines
111-150): atomically increment `current_tick_` (32-bit wraparound), then,
if `events_enabled_`, run a delivery pass over the registry.  Returns the
new state and the list of threads a signal delivery was attempted to. -/
def timerLoopBody (kill : Nat → KillResult) (s : EvState) : EvState × List Nat :=
  let s1 := { s with current_tick := (s.current_tick + 1) % 4294967296 }
  if s1.events_enabled then
    let d := deliverPass kill s1.threads
    ({ s1 with threads := d.1 }, d.2.1)
  else
    (s1, [])

/-- One handler-reported callback-count transition: `reg` is a
`RegisteredCallback` reporting count `cnt + 1`; `unreg` is an
`UnregisteredCallback` reporting count `cnt - 1` (undefined below 0). -/
inductive CbEvent where
  | reg : CbEvent
  | unreg : CbEvent
deriving DecidableEq, Repr

/-- Apply one callback-count event, tracking the count the handler would
report.  `none` stands for a fatal abort (double start) or for a sequence
the handler cannot produce (`unreg` at count 0). -/
def stepCallback (s : EvState) (cnt : Nat) : CbEvent → Option (EvState × Nat)
  | CbEvent.reg =>
    (registeredCallback s ((cnt : Int) + 1)).map (fun s2 => (s2, cnt + 1))
  | CbEvent.unreg =>
    match cnt with
    | 0 => none
    | n + 1 => some (unregisteredCallback s (n : Int), n)

/-- Run a sequence of callback-count events. -/
def runCallbacks : List CbEvent → EvState → Nat → Option (EvState × Nat)
  | [], s, cnt => some (s, cnt)
  | e :: rest, s, cnt =>
    match stepCallback s cnt e with
    | none => none
    | some (s2, c2) => runCallbacks rest s2 c2

/-- Run a sequence of `RegisterThread` calls, given the caller ids. -/
def runRegisters : List Nat → EvState → EvState
  | [], s => s
  | t :: ts, s => runRegisters ts (registerThread s t)

/-- C3: `GetTicksSinceLastCall`, called for the first time on a given
thread (its `thread_last_tick` still holds the sentinel 0), returns
exactly 1 rather than a computed delta, whatever the shared counter
reads. -/
theorem first_call_returns_one (system_time : Nat) :
    (getTicksSinceLastCall system_time 0).1 = 1 := by
  simp [getTicksSinceLastCall]

/-- C9: if `GetTicksSinceLastCall` runs while the shared counter reads 0,
it stores 0 — the "never queried" sentinel — as the thread's last tick, so
the thread's next call takes the first-observation path and returns 1
regardless of how far the counter has moved in between. -/
theorem tick_zero_resets_sentinel (p c : Nat) :
    (getTicksSinceLastCall 0 p).2 = 0 ∧
    (getTicksSinceLastCall c (getTicksSinceLastCall 0 p).2).1 = 1 := by
  simp [getTicksSinceLastCall]

/-- C10: with no timer thread running (`thread_` is 0), `StopTimerThread`
— and hence `UnregisteredCallback(0)` and `Reset()` — returns leaving
every field of the event source unchanged. -/
theorem stop_idle_is_noop (s : EvState) (h : s.thread = false) :
    stopTimerThread s = s ∧ unregisteredCallback s 0 = s ∧ reset s = s := by
  simp [stopTimerThread, unregisteredCallback, reset, h]

/-- Witness for `stop_idle_is_noop` at the freshly constructed state. -/
theorem stop_idle_is_noop_witness :
    (mk 100).thread = false ∧
    (stopTimerThread (mk 100) = mk 100 ∧ unregisteredCallback (mk 100) 0 = mk 100 ∧
      reset (mk 100) = mk 100) :=
  ⟨by decide, stop_idle_is_noop (mk 100) (by decide)⟩

/-- C7: invoking `StartTimerThread` — via `RegisteredCallback(1)`, a
second 0-to-1 transition — while a timer thread handle is already held is
the fatal `RAW_LOG(FATAL, "Timer already running")`, modelled as `none`:
no second thread is launched. -/
theorem double_start_is_fatal (s : EvState) (h : s.thread = true) :
    registeredCallback s 1 = none := by
  simp [registeredCallback, startTimerThread, h]

/-- Witness for `double_start_is_fatal` at a concrete running state. -/
theorem double_start_is_fatal_witness :
    ({ thread := true, thread_stop := false, events_enabled := false,
       frequency := 100, threads := [], current_tick := 0 } : EvState).thread = true ∧
    registeredCallback
      { thread := true, thread_stop := false, events_enabled := false,
        frequency := 100, threads := [], current_tick := 0 } 1 = none :=
  ⟨by decide, double_start_is_fatal _ (by decide)⟩

/-- C1 (code bug): `DisableEvents` as written sets `events_enabled_` to
`true` (lines 23-25), so after calling it on a delivering state the next
timer-loop iteration still attempts delivery to every registered thread —
notification delivery is not stopped.  (The tick counter does keep
advancing and the timer thread keeps running, as the claim says.) -/
theorem disableEvents_keeps_delivering :
    (disableEvents
        { thread := true, thread_stop := false, events_enabled := true,
          frequency := 100, threads := [7], current_tick := 0 }).events_enabled = true ∧
    (timerLoopBody (fun _ => KillResult.ok)
        (disableEvents
          { thread := true, thread_stop := false, events_enabled := true,
            frequency := 100, threads := [7], current_tick := 0 })).2 = [7] ∧
    (timerLoopBody (fun _ => KillResult.ok)
        (disableEvents
          { thread := true, thread_stop := false, events_enabled := true,
            frequency := 100, threads := [7], current_tick := 0 })).1.current_tick = 1 := by
  decide

/-- C5 counterexample: `Reset()` on a running state with events enabled, a
registered worker and an advanced tick counter does not give back the
just-constructed state — it only stops the thread, leaving
`events_enabled_`, `threads_`, `current_tick_` untouched and setting
`thread_stop_` to `true`. -/
theorem reset_is_not_constructor :
    reset { thread := true, thread_stop := false, events_enabled := true,
            frequency := 100, threads := [7], current_tick := 5 } ≠ mk 100 := by
  decide

/-- C5 (amended): `Reset()` always clears the thread handle, so a
subsequent `RegisteredCallback(1)` starts a fresh timer thread cleanly
(stop flag cleared, handle held); but the events-enabled flag, the worker
registry and the tick counter keep their pre-reset values rather than
returning to the constructor's. -/
theorem reset_stops_and_restarts_cleanly (s : EvState) :
    (reset s).thread = false ∧
    (reset s).events_enabled = s.events_enabled ∧
    (reset s).threads = s.threads ∧
    (reset s).current_tick = s.current_tick ∧
    registeredCallback (reset s) 1 =
      some { reset s with thread := true, thread_stop := false } := by
  cases hs : s.thread <;>
    simp [reset, stopTimerThread, registeredCallback, startTimerThread, hs]

/-- C8 counterexample: two `RegisterThread` calls from the same thread
(id 5) leave its identifier twice in the registry — `threads_` is a
`list` with `push_back`, not a set, so "at most once" fails. -/
theorem duplicate_registration_duplicates_entry :
    ¬ ((runRegisters [5, 5] (mk 100)).threads.count 5 ≤ 1) := by
  decide

/-- C8 (amended): the registry is a list, and each `RegisterThread` call
appends the calling thread's identifier, so after any sequence of calls an
identifier occurs once per call that registered it; duplicate
registration is tolerated and corrupts no other field of the state. -/
theorem registry_collects_callers (calls : List Nat) (s : EvState) :
    (runRegisters calls s).threads = s.threads ++ calls ∧
    (runRegisters calls s).thread = s.thread ∧
    (runRegisters calls s).thread_stop = s.thread_stop ∧
    (runRegisters calls s).events_enabled = s.events_enabled ∧
    (runRegisters calls s).current_tick = s.current_tick := by
  induction calls generalizing s with
  | nil => simp [runRegisters]
  | cons t ts ih => simp [runRegisters, registerThread, ih]

/-- C6: in one delivery pass, every registry entry gets a delivery
attempt (a failure never aborts the pass), exactly the entries whose
target no longer exists (`ESRCH`) are removed, and exactly the entries
with any other delivery error (`EINVAL` or unknown) are logged as
warnings while staying in the registry. -/
theorem delivery_pass_prunes_only_dead (kill : Nat → KillResult) (ts : List Nat) :
    (deliverPass kill ts).2.1 = ts ∧
    (deliverPass kill ts).1 =
      ts.filter (fun t => decide (kill t ≠ KillResult.esrch)) ∧
    (deliverPass kill ts).2.2 =
      ts.filter (fun t =>
        decide (kill t ≠ KillResult.ok ∧ kill t ≠ KillResult.esrch)) := by
  induction ts with
  | nil => simp [deliverPass]
  | cons t ts ih =>
    obtain ⟨ih1, ih2, ih3⟩ := ih
    cases h : kill t <;>
      simp [deliverPass, h, ih1, ih2, ih3, List.filter_cons]

/-- C4: for every handler-producible sequence of `RegisteredCallback` /
`UnregisteredCallback` calls that runs without aborting, the timer thread
is running afterwards exactly when the current callback count is at least
1 — it is started on the 0-to-1 transition and stopped on the 1-to-0
transition and at no other point. -/
theorem timer_running_iff_callbacks (evs : List CbEvent) (s : EvState) (cnt : Nat)
    (s2 : EvState) (cnt2 : Nat)
    (hinv : s.thread = decide (1 ≤ cnt))
    (hrun : runCallbacks evs s cnt = some (s2, cnt2)) :
    s2.thread = decide (1 ≤ cnt2) := by
  induction evs generalizing s cnt with
  | nil =>
    simp [runCallbacks] at hrun
    obtain ⟨rfl, rfl⟩ := hrun
    exact hinv
  | cons e rest ih =>
    cases e with
    | reg =>
      cases cnt with
      | zero =>
        simp at hinv
        simp [runCallbacks, stepCallback, registeredCallback,
          startTimerThread, hinv] at hrun
        exact ih _ _ (by simp) hrun
      | succ n =>
        simp at hinv
        have hne : ((n + 1 : Nat) : Int) + 1 ≠ 1 := by
          push_cast; omega
        simp [runCallbacks, stepCallback, registeredCallback, hne] at hrun
        exact ih _ _ (by simp [hinv]) hrun
    | unreg =>
      cases cnt with
      | zero => simp [runCallbacks, stepCallback] at hrun
      | succ n =>
        cases n with
        | zero =>
          simp at hinv
          simp [runCallbacks, stepCallback, unregisteredCallback,
            stopTimerThread, hinv] at hrun
          exact ih _ _ (by simp) hrun
        | succ m =>
          simp at hinv
          have hne : ((m : Int) + 1) ≠ 0 := by omega
          simp [runCallbacks, stepCallback, unregisteredCallback, hne] at hrun
          exact ih _ _ (by simp [hinv]) hrun

/-- Witness for `timer_running_iff_callbacks`: two registrations followed
by one deregistration leave the count at 1 and the timer thread running. -/
theorem timer_running_iff_callbacks_witness :
    ({ thread := true, thread_stop := false, events_enabled := false,
       frequency := 100, threads := [], current_tick := 0 } : EvState).thread =
        decide (1 ≤ (1 : Nat)) ∧
    (mk 100).thread = decide (1 ≤ (0 : Nat)) ∧
    runCallbacks [CbEvent.reg, CbEvent.reg, CbEvent.unreg] (mk 100) 0 =
      some ({ thread := true, thread_stop := false, events_enabled := false,
              frequency := 100, threads := [], current_tick := 0 }, 1) :=
  ⟨timer_running_iff_callbacks [CbEvent.reg, CbEvent.reg, CbEvent.unreg]
      (mk 100) 0 _ 1 (by decide) (by decide),
   by decide, by decide⟩

/-- C2 counterexample: with the previous tick at 2147483647 (`INT32_MAX`)
and the counter advanced by 2 to the pattern 2147483649, wraparound-
tolerant unsigned subtraction of previous from current gives 2, but the
call returns 4294967294: the code takes the absolute value of the signed
32-bit difference, not the unsigned wraparound delta. -/
theorem ticks_delta_not_unsigned_sub :
    (getTicksSinceLastCall 2147483649 2147483647).1 = 4294967294 ∧
    sub32 2147483649 2147483647 = 2 ∧
    (4294967294 : Nat) ≠ 2 := by
  decide

/-- C2 (amended): for a thread whose last-observed tick `p` is not the
sentinel 0, if the shared counter advances by `k` (mod `2^32`) between two
calls, the second call returns `k` when the new reading is at least `p` in
signed 32-bit order, and `2^32 - k` otherwise — the absolute value of the
signed 32-bit difference rather than the unsigned wraparound delta; in
particular it returns 0 when `k = 0`, and the new reading is stored as the
thread's last-observed tick. -/
theorem ticks_delta_signed_absdiff (p k : Nat) (hp : p ≠ 0)
    (hpw : p < 4294967296) (hkw : k < 4294967296) :
    (getTicksSinceLastCall ((p + k) % 4294967296) p).1 =
      (if toSigned p ≤ toSigned ((p + k) % 4294967296) then k
       else 4294967296 - k) ∧
    (getTicksSinceLastCall ((p + k) % 4294967296) p).2 =
      (p + k) % 4294967296 := by
  refine ⟨?_, rfl⟩
  simp only [getTicksSinceLastCall, sub32, toSigned, ne_eq, hp,
    not_false_eq_true, if_true]
  split_ifs <;> omega

/-- Witness for `ticks_delta_signed_absdiff` at `p = 5`, `k = 3`. -/
theorem ticks_delta_signed_absdiff_witness :
    ((5 : Nat) ≠ 0 ∧ (5 : Nat) < 4294967296 ∧ (3 : Nat) < 4294967296) ∧
    ((getTicksSinceLastCall ((5 + 3) % 4294967296) 5).1 =
        (if toSigned 5 ≤ toSigned ((5 + 3) % 4294967296) then 3
         else 4294967296 - 3) ∧
      (getTicksSinceLastCall ((5 + 3) % 4294967296) 5).2 =
        (5 + 3) % 4294967296) :=
  ⟨⟨by decide, by decide, by decide⟩,
   ticks_delta_signed_absdiff 5 3 (by decide) (by decide) (by decide)⟩

end ThreadProfileEventSource
